import Mathlib

/-!
Verification development for the falling-objects arcade game.

The definitions below are a shallow embedding of the game's core
(`src/main.ts`): geometry utilities, the falling-object variants, the
player paddle, the field, the level generator and the per-frame game
loop.  JavaScript numbers are modelled as rationals (`ℚ`); the ambient
`Math.random()` source is threaded explicitly as a stream `ℕ → ℚ` of
values in `[0, 1)`; a JavaScript value that may be `undefined` (e.g. an
out-of-bounds array access) is modelled by `JsValue`.  DOM, canvas,
audio and the fireworks particle layer are external collaborators with
no effect on simulation state and are not modelled.
-/

-- ---------- Basic Types ----------

/-- `interface Point { x, y }`. -/
structure Point where
  x : ℚ
  y : ℚ
deriving DecidableEq

/-- `interface Bounds { x, y, width, height }`. -/
structure Bounds where
  x : ℚ
  y : ℚ
  width : ℚ
  height : ℚ
deriving DecidableEq

-- ---------- Utility ----------

/-- `boundsIntersect(a, b)`: axis-aligned box overlap, strict inequalities. -/
def boundsIntersect (a b : Bounds) : Bool :=
  decide (a.x < b.x + b.width) &&
  decide (a.x + a.width > b.x) &&
  decide (a.y < b.y + b.height) &&
  decide (a.y + a.height > b.y)

/-- `randomBetween(min, max)`: `Math.random() * (max - min) + min`, with the
`Math.random()` draw `u ∈ [0,1)` made an explicit argument. -/
def randomBetween (min max u : ℚ) : ℚ :=
  u * (max - min) + min

/-- A JavaScript value of nominal type `T` that may actually be `undefined`. -/
inductive JsValue (α : Type) where
  | undef : JsValue α
  | val : α → JsValue α
deriving DecidableEq

/-- JavaScript array indexing `arr[i]`: the element when `i` is in range,
`undefined` otherwise. -/
def jsIndex {α : Type} (arr : List α) (i : ℤ) : JsValue α :=
  if h : 0 ≤ i ∧ i.toNat < arr.length then JsValue.val (arr.get ⟨i.toNat, h.2⟩)
  else JsValue.undef

/-- `randomChoice(arr)`: `arr[Math.floor(Math.random() * arr.length)]`, with the
`Math.random()` draw `u` explicit.  On an empty array the index access yields
`undefined`; the source performs no emptiness check and never throws. -/
def randomChoice {α : Type} (arr : List α) (u : ℚ) : JsValue α :=
  jsIndex arr ⌊u * (arr.length : ℚ)⌋

/-- The exception-aware view of the source `randomChoice`: the function body
contains no `throw`, so every call returns normally with its `JsValue`. -/
def randomChoiceExc {α : Type} (arr : List α) (u : ℚ) : Except String (JsValue α) :=
  Except.ok (randomChoice arr u)

/-- Modelled from the spec: `choice(list)` "fails with an 'empty input'
condition if the list is empty", otherwise behaves as the code's
`randomChoice`.  This is the spec's words, for comparison with
`randomChoiceExc`, which embeds the source. -/
def randomChoiceSpec {α : Type} (arr : List α) (u : ℚ) : Except String (JsValue α) :=
  if arr.isEmpty then Except.error "empty input" else Except.ok (randomChoice arr u)

-- ---------- Game Objects ----------

/-- The closed set of falling-object variants
(`FallingCircle`, `RotatingFallingSquare`, `RotatingFallingTriangle`,
`FallingEmojiObject`, `FallingStarObject`, `FallingDiamondObject`). -/
inductive FallingKind where
  | circle | square | triangle | emoji | star | diamond
deriving DecidableEq

/-- Common state of every falling object.  `size` holds the variant's size
field: the radius for a circle, the edge for a square/triangle, the font size
for an emoji, and the nominal size (half the bounding box) for a
star/diamond.  `angle` holds the rotation phase (`angle` for square/triangle,
`rotation` for star); `text` holds the emoji glyph.  Unused fields of a
variant are fixed by its constructor. -/
structure FallingObject where
  kind : FallingKind
  location : Point
  speed : Point
  isAlive : Bool
  size : ℚ
  angle : ℚ
  angularSpeed : ℚ
  color : String
  borderColor : String
  text : String
deriving DecidableEq

/-- `new FallingCircle(location, speedY, radius, color, borderColor)`;
the base constructor sets `speed = { x: 0, y: speedY }`. -/
def mkFallingCircle (location : Point) (speedY radius : ℚ) (color borderColor : String) :
    FallingObject :=
  { kind := FallingKind.circle, location := location, speed := { x := 0, y := speedY },
    isAlive := true, size := radius, angle := 0, angularSpeed := 0,
    color := color, borderColor := borderColor, text := "" }

/-- `new RotatingFallingSquare(location, speedY, size, color, borderColor, angularSpeed)`. -/
def mkRotatingFallingSquare (location : Point) (speedY size : ℚ) (color borderColor : String)
    (angularSpeed : ℚ) : FallingObject :=
  { kind := FallingKind.square, location := location, speed := { x := 0, y := speedY },
    isAlive := true, size := size, angle := 0, angularSpeed := angularSpeed,
    color := color, borderColor := borderColor, text := "" }

/-- `new RotatingFallingTriangle(location, speedY, size, color, borderColor, angularSpeed)`. -/
def mkRotatingFallingTriangle (location : Point) (speedY size : ℚ) (color borderColor : String)
    (angularSpeed : ℚ) : FallingObject :=
  { kind := FallingKind.triangle, location := location, speed := { x := 0, y := speedY },
    isAlive := true, size := size, angle := 0, angularSpeed := angularSpeed,
    color := color, borderColor := borderColor, text := "" }

/-- `new FallingEmojiObject(location, speedY, fontSize, text)`; the source
passes colors `"#ffffff"` / `"#000000"` to the base constructor. -/
def mkFallingEmojiObject (location : Point) (speedY fontSize : ℚ) (text : String) :
    FallingObject :=
  { kind := FallingKind.emoji, location := location, speed := { x := 0, y := speedY },
    isAlive := true, size := fontSize, angle := 0, angularSpeed := 0,
    color := "#ffffff", borderColor := "#000000", text := text }

/-- `new FallingStarObject(location, speedY, size)` with colors
`"#ffff00"` / `"#ffcc00"` and `rotation = 0`. -/
def mkFallingStarObject (location : Point) (speedY size : ℚ) : FallingObject :=
  { kind := FallingKind.star, location := location, speed := { x := 0, y := speedY },
    isAlive := true, size := size, angle := 0, angularSpeed := 0,
    color := "#ffff00", borderColor := "#ffcc00", text := "" }

/-- `new FallingDiamondObject(location, speedY, size)` with colors
`"#00ccff"` / `"#0099cc"`. -/
def mkFallingDiamondObject (location : Point) (speedY size : ℚ) : FallingObject :=
  { kind := FallingKind.diamond, location := location, speed := { x := 0, y := speedY },
    isAlive := true, size := size, angle := 0, angularSpeed := 0,
    color := "#00ccff", borderColor := "#0099cc", text := "" }

/-- `GameField`: width, height and the live-object collection. -/
structure GameField where
  width : ℚ
  height : ℚ
  gameObjects : List FallingObject

/-- `BaseFallingObject.move(deltaSeconds, field)`:
`location.y += speed.y * deltaSeconds`, then
`if (location.y - 100 > field.height) isAlive = false`. -/
def BaseFallingObject.move (o : FallingObject) (deltaSeconds : ℚ) (field : GameField) :
    FallingObject :=
  let y := o.location.y + o.speed.y * deltaSeconds
  { o with
    location := { o.location with y := y },
    isAlive := if y - 100 > field.height then false else o.isAlive }

/-- The variant-dispatched `move`: circle/emoji/diamond use the base move;
square/triangle additionally do `angle += angularSpeed * deltaSeconds` after
`super.move`; the star does `rotation += 0.1` before `super.move`. -/
def FallingObject.move (o : FallingObject) (deltaSeconds : ℚ) (field : GameField) :
    FallingObject :=
  match o.kind with
  | FallingKind.circle | FallingKind.emoji | FallingKind.diamond =>
    BaseFallingObject.move o deltaSeconds field
  | FallingKind.square | FallingKind.triangle =>
    let o1 := BaseFallingObject.move o deltaSeconds field
    { o1 with angle := o1.angle + o1.angularSpeed * deltaSeconds }
  | FallingKind.star =>
    BaseFallingObject.move { o with angle := o.angle + 0.1 } deltaSeconds field

/-- `getBounds()` per variant: circle `{x - r, y - r, 2r, 2r}`;
square/triangle/emoji `{x - s/2, y - s/2, s, s}`;
star/diamond `{x - s, y - s, 2s, 2s}`. -/
def FallingObject.getBounds (o : FallingObject) : Bounds :=
  match o.kind with
  | FallingKind.circle | FallingKind.star | FallingKind.diamond =>
    { x := o.location.x - o.size, y := o.location.y - o.size,
      width := o.size * 2, height := o.size * 2 }
  | FallingKind.square | FallingKind.triangle | FallingKind.emoji =>
    { x := o.location.x - o.size / 2, y := o.location.y - o.size / 2,
      width := o.size, height := o.size }

/-- `Player`: location, fixed width/height, liveness; `speed` is the unused
`{x: 0, y: 0}` field of the source class. -/
structure Player where
  location : Point
  speed : Point
  width : ℚ
  height : ℚ
  color : String
  borderColor : String
  isAlive : Bool
deriving DecidableEq

/-- `new Player(location, width, height, color, borderColor)`. -/
def mkPlayer (location : Point) (width height : ℚ) (color borderColor : String) : Player :=
  { location := location, speed := { x := 0, y := 0 }, width := width, height := height,
    color := color, borderColor := borderColor, isAlive := true }

/-- `private moveSpeed = 420` (pixels per second). -/
def Player.moveSpeed : ℚ := 420

/-- `moveLeft(deltaSeconds)`. -/
def Player.moveLeft (p : Player) (deltaSeconds : ℚ) : Player :=
  { p with location := { p.location with x := p.location.x - Player.moveSpeed * deltaSeconds } }

/-- `moveRight(deltaSeconds)`. -/
def Player.moveRight (p : Player) (deltaSeconds : ℚ) : Player :=
  { p with location := { p.location with x := p.location.x + Player.moveSpeed * deltaSeconds } }

/-- `moveUp(deltaSeconds)`. -/
def Player.moveUp (p : Player) (deltaSeconds : ℚ) : Player :=
  { p with location := { p.location with y := p.location.y - Player.moveSpeed * deltaSeconds } }

/-- `moveDown(deltaSeconds)`. -/
def Player.moveDown (p : Player) (deltaSeconds : ℚ) : Player :=
  { p with location := { p.location with y := p.location.y + Player.moveSpeed * deltaSeconds } }

/-- `Player.move(deltaSeconds, field)`: the four sequential clamp checks
(x low, x high, y low, y high); `deltaSeconds` is unused by the source body. -/
def Player.move (p : Player) (deltaSeconds : ℚ) (field : GameField) : Player :=
  let x := p.location.x
  let x := if x < p.width / 2 then p.width / 2 else x
  let x := if x > field.width - p.width / 2 then field.width - p.width / 2 else x
  let y := p.location.y
  let y := if y < p.height / 2 then p.height / 2 else y
  let y := if y > field.height - p.height / 2 then field.height - p.height / 2 else y
  { p with location := { x := x, y := y } }

/-- `Player.getBounds()`: box centered on the location. -/
def Player.getBounds (p : Player) : Bounds :=
  { x := p.location.x - p.width / 2, y := p.location.y - p.height / 2,
    width := p.width, height := p.height }

/-- `obj.hasCollision(player)`: intersection of the two current bounds. -/
def hasCollision (o : FallingObject) (p : Player) : Bool :=
  boundsIntersect o.getBounds p.getBounds

/-- `GameField.addObject(obj)`: `gameObjects.push(obj)`. -/
def GameField.addObject (f : GameField) (o : FallingObject) : GameField :=
  { f with gameObjects := f.gameObjects ++ [o] }

/-- `GameField.removeDead()`: `gameObjects = gameObjects.filter(o => o.isAlive)`. -/
def GameField.removeDead (f : GameField) : GameField :=
  { f with gameObjects := f.gameObjects.filter (fun o => o.isAlive) }

-- ---------- The simplified build (`SimpleGame`) ----------

/-- The `GameObject` record of the simplified build. -/
structure SimpleObj where
  x : ℚ
  y : ℚ
  width : ℚ
  height : ℚ
  vx : ℚ
  vy : ℚ
  alive : Bool
  color : String
  type : String
deriving DecidableEq

/-- `SimpleGame.collides(a, b)`: the same four strict comparisons as
`boundsIntersect`. -/
def SimpleGame.collides (a b : SimpleObj) : Bool :=
  decide (a.x < b.x + b.width) &&
  decide (a.x + a.width > b.x) &&
  decide (a.y < b.y + b.height) &&
  decide (a.y + a.height > b.y)

-- ---------- Level, LevelObject ----------

/-- `type LevelTheme = "night" | "day" | "factory" | "ocean" | "space"`. -/
inductive LevelTheme where
  | night | day | factory | ocean | space
deriving DecidableEq

/-- `type LevelKind = "shapes" | "animals" | "tools"`. -/
inductive LevelKind where
  | shapes | animals | tools
deriving DecidableEq

/-- `class LevelObject { startTime; factory }`: a scheduled offset paired with
the lazy factory.  The factory's own `Math.random()` draws (made at
`createGameObject()` time) are threaded as an explicit stream. -/
structure LevelObject where
  startTime : ℚ
  factory : (ℕ → ℚ) → FallingObject

/-- `LevelObject.createGameObject()`. -/
def LevelObject.createGameObject (lo : LevelObject) (rng : ℕ → ℚ) : FallingObject :=
  lo.factory rng

/-- `class Level`. -/
structure Level where
  difficulty : ℚ
  duration : ℚ
  levelObjects : List LevelObject
  theme : LevelTheme
  kind : LevelKind

/-- The fixed palette of the `shapes` kind. -/
def shapeColors : List String := ["#ff9f80", "#ffdf6e", "#85e3ff", "#baffc9"]

/-- The 7-item animal glyph set. -/
def animalEmojis : List String := ["🐶", "🐱", "🦊", "🐻", "🐰", "🦁", "🐼"]

/-- The 7-item tool glyph set. -/
def toolEmojis : List String := ["🔧", "🛠", "⚙", "🔩", "🪚", "🔨", "🪛"]

/-- The per-entry factory closure of `generateLevel`, over the values `x`,
`startY`, `speed`, `size`, `radius` captured at generation time.  Its own
draws `frng 0`, `frng 1`, `frng 2` model the `Math.random()` calls made when
the factory runs.  The source selects the shape with
`if type === "circle" ... else if type === "square" ... else triangle`, so an
out-of-range draw (whose `randomChoice` is `undefined`) falls to the triangle
branch; an `undefined` color or glyph is modelled by the string
`"undefined"`. -/
def levelObjectFactory (theme : LevelTheme) (kind : LevelKind)
    (x startY speed size radius : ℚ) (frng : ℕ → ℚ) : FallingObject :=
  match theme with
  | LevelTheme.space => mkFallingStarObject { x := x, y := startY } speed radius
  | LevelTheme.ocean => mkFallingDiamondObject { x := x, y := startY } speed radius
  | _ =>
    match kind with
    | LevelKind.shapes =>
      let type := randomChoice ["circle", "square", "triangle"] (frng 0)
      let color := match randomChoice shapeColors (frng 1) with
        | JsValue.val c => c
        | JsValue.undef => "undefined"
      let borderColor := "#ffffff"
      let angularSpeed := randomBetween (-2.5) 2.5 (frng 2)
      if type = JsValue.val "circle" then
        mkFallingCircle { x := x, y := startY } speed radius color borderColor
      else if type = JsValue.val "square" then
        mkRotatingFallingSquare { x := x, y := startY } speed size color borderColor angularSpeed
      else
        mkRotatingFallingTriangle { x := x, y := startY } speed size color borderColor angularSpeed
    | LevelKind.animals =>
      let emoji := match randomChoice animalEmojis (frng 0) with
        | JsValue.val e => e
        | JsValue.undef => "undefined"
      mkFallingEmojiObject { x := x, y := startY } speed size emoji
    | LevelKind.tools =>
      let emoji := match randomChoice toolEmojis (frng 0) with
        | JsValue.val e => e
        | JsValue.undef => "undefined"
      mkFallingEmojiObject { x := x, y := startY } speed size emoji

/-- `generateLevel(durationMs, difficulty, field, theme, kind)`.  The loop's
five generation-time draws of iteration `i` are `rng (5*i) .. rng (5*i+4)`
(startTime, x, startY, speed, size).  The closing
`levelObjects.sort((a, b) => a.startTime - b.startTime)` is a stable ascending
sort, embedded as `List.mergeSort` on `startTime ≤ startTime`. -/
def generateLevel (durationMs difficulty : ℚ) (field : GameField)
    (theme : LevelTheme) (kind : LevelKind) (rng : ℕ → ℚ) : Level :=
  let seconds := durationMs / 1000
  let objectsCount : ℤ := ⌊seconds * difficulty * 1.5⌋
  let levelObjects : List LevelObject :=
    (List.range objectsCount.toNat).map (fun i =>
      let startTime := randomBetween 0 (durationMs - 500) (rng (5 * i))
      let x := randomBetween 40 (field.width - 40) (rng (5 * i + 1))
      let startY := randomBetween (-200) (-40) (rng (5 * i + 2))
      let minSpeed := 80 + difficulty * 30
      let maxSpeed := 190 + difficulty * 60
      let speed := randomBetween minSpeed maxSpeed (rng (5 * i + 3))
      let size := randomBetween 28 48 (rng (5 * i + 4))
      let radius := size / 2
      { startTime := startTime,
        factory := levelObjectFactory theme kind x startY speed size radius })
  let sorted := List.mergeSort levelObjects (fun a b => decide (a.startTime ≤ b.startTime))
  { difficulty := difficulty, duration := durationMs, levelObjects := sorted,
    theme := theme, kind := kind }

-- ---------- Game ----------

/-- `type GameStatus`. -/
inductive GameStatus where
  | IDLE | RUNNING | PAUSED | STOPPED | FINISHED
deriving DecidableEq

/-- The simulation-relevant state of `class Game`.  Canvas, audio, HUD labels
and the fireworks layer are external collaborators without influence on these
fields. -/
structure GameState where
  field : GameField
  player : Player
  levels : List Level
  currentLevelIndex : ℕ
  levelStartTime : ℚ
  lastFrameTime : ℚ
  nextLevelObjectIndex : ℕ
  status : GameStatus
  leftPressed : Bool
  rightPressed : Bool
  upPressed : Bool
  downPressed : Bool
  isLevelPassed : Bool
  levelPassedStartTime : ℚ

/-- `handlePlayerHit()`: sets the terminal `STOPPED` status (label, overlay and
collision sound are external). -/
def handlePlayerHit (s : GameState) : GameState :=
  { s with status := GameStatus.STOPPED }

/-- `handleLevelFinished()`: stop the run, raise the level-passed flag and
record its start time; on the last level the status becomes `FINISHED`
instead.  Fireworks bursts and overlays are external. -/
def handleLevelFinished (s : GameState) (now : ℚ) : GameState :=
  let s1 := { s with status := GameStatus.STOPPED, isLevelPassed := true,
                     levelPassedStartTime := now }
  if s1.currentLevelIndex < s1.levels.length - 1 then s1
  else { s1 with status := GameStatus.FINISHED }

/-- The spawn-dispatch `while` loop of `Game.loop`: while the cursor references
a `LevelObject` whose `startTime ≤ elapsedMs`, instantiate it into the field
and advance the cursor.  `fuel` bounds the iteration count (the loop runs at
most `length - idx` times); each created factory consumes its own slice of the
random stream. -/
def dispatchSpawnsAux (level : Level) (elapsedMs : ℚ) (rng : ℕ → ℚ) :
    ℕ → GameField → ℕ → GameField × ℕ
  | 0, field, idx => (field, idx)
  | fuel + 1, field, idx =>
    match level.levelObjects.get? idx with
    | none => (field, idx)
    | some lo =>
      if lo.startTime ≤ elapsedMs then
        dispatchSpawnsAux level elapsedMs rng fuel
          (field.addObject (lo.createGameObject (fun n => rng (idx * 4 + n)))) (idx + 1)
      else (field, idx)

/-- The spawn-dispatch loop, started with enough fuel for the whole schedule. -/
def dispatchSpawns (level : Level) (elapsedMs : ℚ) (rng : ℕ → ℚ)
    (field : GameField) (idx : ℕ) : GameField × ℕ :=
  dispatchSpawnsAux level elapsedMs rng (level.levelObjects.length - idx) field idx

/-- The four held-direction blocks of `Game.loop`:
`if (leftPressed) moveLeft; if (rightPressed) moveRight; ...`. -/
def applyHeldInput (s : GameState) (deltaSeconds : ℚ) : Player :=
  let player := s.player
  let player := if s.leftPressed then player.moveLeft deltaSeconds else player
  let player := if s.rightPressed then player.moveRight deltaSeconds else player
  let player := if s.upPressed then player.moveUp deltaSeconds else player
  let player := if s.downPressed then player.moveDown deltaSeconds else player
  player

/-- The body of one `RUNNING` frame of `Game.loop(timestamp)`, in the source
order: delta computation; spawn dispatch; held-direction input then
`player.move` (the clamp); `field.gameObjects.forEach(obj => obj.move(...))`;
`field.removeDead()`; the collision scan (its `break` after the first hit has
the same state effect as testing whether any object collides, namely one
`handlePlayerHit`); the level-completion check.  The fireworks update, HUD
update, render and frame re-scheduling have no simulation-state effect and
are omitted. -/
def loopStep (s : GameState) (level : Level) (timestamp : ℚ) (rng : ℕ → ℚ) : GameState :=
  let deltaMs := timestamp - s.lastFrameTime
  let deltaSeconds := deltaMs / 1000
  let elapsedMs := timestamp - s.levelStartTime
  let fi := dispatchSpawns level elapsedMs rng s.field s.nextLevelObjectIndex
  let field := fi.1
  let player := applyHeldInput s deltaSeconds
  let player := player.move deltaSeconds field
  let field := { field with
    gameObjects := field.gameObjects.map
      (fun o => FallingObject.move o deltaSeconds field) }
  let field := field.removeDead
  let s1 := { s with lastFrameTime := timestamp, field := field, player := player,
                     nextLevelObjectIndex := fi.2 }
  let s2 := if field.gameObjects.any (fun o => hasCollision o player) then
    handlePlayerHit s1 else s1
  if level.duration ≤ elapsedMs ∧ field.gameObjects.length = 0 then
    handleLevelFinished s2 timestamp else s2

/-- One invocation of the per-frame callback `Game.loop(timestamp)`: the
early return unless `RUNNING`, the `levels[currentLevelIndex]` lookup
(`none` models the JS crash when the index is out of range), then the frame
body `loopStep`. -/
def Game.loop (s : GameState) (timestamp : ℚ) (rng : ℕ → ℚ) : Option GameState :=
  if s.status ≠ GameStatus.RUNNING then some s
  else
    match s.levels.get? s.currentLevelIndex with
    | none => none
    | some level => some (loopStep s level timestamp rng)

-- ---------- Theorems ----------

/-- C6: `boundsIntersect` returns true iff `a.x < b.x + b.width` and
`a.x + a.width > b.x` and `a.y < b.y + b.height` and `a.y + a.height > b.y`;
edge-touching boxes do not collide: `{0,0,10,10}` vs `{5,5,10,10}` collide,
`{0,0,10,10}` vs `{10,10,10,10}` do not; `SimpleGame.collides` is the same
test. -/
theorem boundsIntersect_iff_overlap :
    (∀ a b : Bounds, boundsIntersect a b = true ↔
      (a.x < b.x + b.width ∧ a.x + a.width > b.x ∧
       a.y < b.y + b.height ∧ a.y + a.height > b.y)) ∧
    boundsIntersect ⟨0, 0, 10, 10⟩ ⟨5, 5, 10, 10⟩ = true ∧
    boundsIntersect ⟨0, 0, 10, 10⟩ ⟨10, 10, 10, 10⟩ = false ∧
    (∀ a b : SimpleObj, SimpleGame.collides a b =
      boundsIntersect ⟨a.x, a.y, a.width, a.height⟩ ⟨b.x, b.y, b.width, b.height⟩) := by
  refine ⟨fun a b => ?_, by norm_num [boundsIntersect], by norm_num [boundsIntersect],
    fun a b => rfl⟩
  simp [boundsIntersect, Bool.and_eq_true, decide_eq_true_eq, and_assoc]

/-- C9: every variant constructor sets `speed.x = 0`, and `move` never changes
the speed vector or the horizontal position: motion is vertical-only. -/
theorem falling_speed_vertical_only :
    (∀ loc sy r c bc, (mkFallingCircle loc sy r c bc).speed.x = 0) ∧
    (∀ loc sy sz c bc av, (mkRotatingFallingSquare loc sy sz c bc av).speed.x = 0) ∧
    (∀ loc sy sz c bc av, (mkRotatingFallingTriangle loc sy sz c bc av).speed.x = 0) ∧
    (∀ loc sy fs t, (mkFallingEmojiObject loc sy fs t).speed.x = 0) ∧
    (∀ loc sy sz, (mkFallingStarObject loc sy sz).speed.x = 0) ∧
    (∀ loc sy sz, (mkFallingDiamondObject loc sy sz).speed.x = 0) ∧
    (∀ (o : FallingObject) (dt : ℚ) (f : GameField),
      (FallingObject.move o dt f).speed = o.speed ∧
      (FallingObject.move o dt f).location.x = o.location.x) := by
  refine ⟨fun _ _ _ _ _ => rfl, fun _ _ _ _ _ _ => rfl, fun _ _ _ _ _ _ => rfl,
    fun _ _ _ _ => rfl, fun _ _ _ => rfl, fun _ _ _ => rfl, fun o dt f => ?_⟩
  cases hk : o.kind <;>
    simp [FallingObject.move, BaseFallingObject.move, hk]

/-- C10: death is monotone: `move` never revives a dead object, and
`removeDead` keeps exactly the objects whose liveness flag is set. -/
theorem dead_stays_dead :
    (∀ (o : FallingObject) (dt : ℚ) (f : GameField),
      o.isAlive = false → (FallingObject.move o dt f).isAlive = false) ∧
    (∀ (f : GameField) (o : FallingObject),
      o ∈ f.removeDead.gameObjects ↔ o ∈ f.gameObjects ∧ o.isAlive = true) := by
  constructor
  · intro o dt f h
    cases hk : o.kind <;>
      simp [FallingObject.move, BaseFallingObject.move, hk, h]
  · intro f o
    simp [GameField.removeDead, List.mem_filter]

/-- A field of dimensions 800 × 600 with no live objects. -/
def fld600 : GameField := { width := 800, height := 600, gameObjects := [] }

/-- A circle that is already dead. -/
def deadCircle : FallingObject :=
  { mkFallingCircle ⟨100, 50⟩ 10 20 "#ff9f80" "#ffffff" with isAlive := false }

/-- Witness for C10 at a concrete dead object. -/
theorem dead_stays_dead_witness :
    deadCircle.isAlive = false ∧
    (FallingObject.move deadCircle 1 fld600).isAlive = false :=
  ⟨rfl, dead_stays_dead.1 deadCircle 1 fld600 rfl⟩

/-- C1: `move` first integrates `location.y += speed.y * dt`, and an alive
object is marked dead exactly when the post-integration position satisfies
`location.y - 100 > field.height`, i.e. `location.y > field.height + 100`,
never earlier. -/
theorem falling_move_death_boundary (o : FallingObject) (dt : ℚ) (f : GameField)
    (halive : o.isAlive = true) :
    (FallingObject.move o dt f).location.y = o.location.y + o.speed.y * dt ∧
    ((FallingObject.move o dt f).isAlive = false ↔
      f.height + 100 < o.location.y + o.speed.y * dt) := by
  have hy : (FallingObject.move o dt f).location.y = o.location.y + o.speed.y * dt := by
    cases hk : o.kind <;> simp [FallingObject.move, BaseFallingObject.move, hk]
  have ha : (FallingObject.move o dt f).isAlive =
      (if o.location.y + o.speed.y * dt - 100 > f.height then false else true) := by
    cases hk : o.kind <;> simp [FallingObject.move, BaseFallingObject.move, hk, halive]
  refine ⟨hy, ?_⟩
  rw [ha]
  constructor
  · intro hf
    by_contra hc
    rw [if_neg (fun hgt => hc (by linarith))] at hf
    exact absurd hf (by decide)
  · intro hlt
    rw [if_pos (by linarith)]

/-- An alive circle at `y = 699`. -/
def obj699 : FallingObject := mkFallingCircle ⟨100, 699⟩ 50 20 "#ff9f80" "#ffffff"

/-- An alive circle whose position was forced to `y = 701`. -/
def obj701 : FallingObject := mkFallingCircle ⟨100, 701⟩ 50 20 "#ff9f80" "#ffffff"

/-- Witness for C1: on a field of height 600 and `dt = 0`, the object at
`y = 699` stays alive and the object at `y = 701` is marked dead. -/
theorem falling_move_death_boundary_witness :
    obj699.isAlive = true ∧ obj701.isAlive = true ∧
    (FallingObject.move obj699 0 fld600).isAlive = true ∧
    (FallingObject.move obj701 0 fld600).isAlive = false := by
  refine ⟨rfl, rfl, ?_, ?_⟩
  · have h := (falling_move_death_boundary obj699 0 fld600 rfl).2
    have hne : ¬(fld600.height + 100 < obj699.location.y + obj699.speed.y * 0) := by
      norm_num [fld600, obj699, mkFallingCircle]
    cases hh : (FallingObject.move obj699 0 fld600).isAlive
    · exact absurd (h.mp hh) hne
    · rfl
  · exact (falling_move_death_boundary obj701 0 fld600 rfl).2.mpr
      (by norm_num [fld600, obj701, mkFallingCircle])

/-- C2: after `Player.move` (the clamp), the player's location lies in
`[width/2, field.width - width/2] × [height/2, field.height - height/2]`,
for every pre-clamp location, whenever the paddle fits in the field. -/
theorem player_move_clamp_invariant (p : Player) (dt : ℚ) (f : GameField)
    (hw : p.width ≤ f.width) (hh : p.height ≤ f.height) :
    p.width / 2 ≤ (p.move dt f).location.x ∧
    (p.move dt f).location.x ≤ f.width - p.width / 2 ∧
    p.height / 2 ≤ (p.move dt f).location.y ∧
    (p.move dt f).location.y ≤ f.height - p.height / 2 := by
  simp only [Player.move]
  split_ifs <;>
    refine ⟨by linarith, by linarith, by linarith, by linarith⟩

/-- A player of width 110 dragged to `x = 0` (far outside the left clamp). -/
def playerAtZero : Player := mkPlayer ⟨0, 300⟩ 110 18 "#22e246" "#ffffff"

/-- Witness for C2: the 110-wide player at `x = 0` on the 800-wide field is
clamped into the invariant box, and lands exactly at `x = 55`. -/
theorem player_move_clamp_invariant_witness :
    playerAtZero.width ≤ fld600.width ∧ playerAtZero.height ≤ fld600.height ∧
    (playerAtZero.width / 2 ≤ (playerAtZero.move 0 fld600).location.x ∧
     (playerAtZero.move 0 fld600).location.x ≤ fld600.width - playerAtZero.width / 2 ∧
     playerAtZero.height / 2 ≤ (playerAtZero.move 0 fld600).location.y ∧
     (playerAtZero.move 0 fld600).location.y ≤ fld600.height - playerAtZero.height / 2) ∧
    (playerAtZero.move 0 fld600).location.x = 55 :=
  ⟨by norm_num [playerAtZero, mkPlayer, fld600],
   by norm_num [playerAtZero, mkPlayer, fld600],
   player_move_clamp_invariant playerAtZero 0 fld600
     (by norm_num [playerAtZero, mkPlayer, fld600])
     (by norm_num [playerAtZero, mkPlayer, fld600]),
   by norm_num [Player.move, playerAtZero, mkPlayer, fld600]⟩

/-- C4: `generateLevel` produces exactly
`floor((durationMs/1000) * difficulty * 1.5)` LevelObjects (for the
nonnegative parameters the game uses). -/
theorem generateLevel_object_count (durationMs difficulty : ℚ) (field : GameField)
    (theme : LevelTheme) (kind : LevelKind) (rng : ℕ → ℚ)
    (hdur : 0 ≤ durationMs) (hdiff : 0 ≤ difficulty) :
    ((generateLevel durationMs difficulty field theme kind rng).levelObjects.length : ℤ) =
      ⌊durationMs / 1000 * difficulty * 1.5⌋ := by
  have h0 : (0 : ℚ) ≤ durationMs / 1000 * difficulty * 1.5 :=
    mul_nonneg (mul_nonneg (div_nonneg hdur (by norm_num)) hdiff) (by norm_num)
  simp only [generateLevel, List.length_mergeSort, List.length_map, List.length_range]
  exact Int.toNat_of_nonneg (Int.floor_nonneg.mpr h0)

/-- Witness for C4: duration 25000 ms at difficulty 0.7 yields
`floor(25 × 0.7 × 1.5) = 26` LevelObjects. -/
theorem generateLevel_object_count_witness :
    (0 : ℚ) ≤ 25000 ∧ (0 : ℚ) ≤ 7 / 10 ∧
    ((generateLevel 25000 (7 / 10) fld600 LevelTheme.night LevelKind.shapes
        (fun _ => 0)).levelObjects.length : ℤ) = 26 := by
  refine ⟨by norm_num, by norm_num, ?_⟩
  rw [generateLevel_object_count 25000 (7 / 10) fld600 LevelTheme.night LevelKind.shapes
    (fun _ => 0) (by norm_num) (by norm_num)]
  norm_num [Int.floor_eq_iff]

/-- A throwaway `LevelObject` used as the default of `List.getD`. -/
def dummyLevelObject : LevelObject :=
  { startTime := 0, factory := fun _ => mkFallingCircle ⟨0, 0⟩ 0 0 "" "" }

/-- C5: regardless of the random draws, the LevelObjects of every generated
level are sorted non-decreasing by `startTime`: for `i ≤ j`,
`levelObjects[i].startTime ≤ levelObjects[j].startTime`. -/
theorem generateLevel_sorted_startTime (durationMs difficulty : ℚ) (field : GameField)
    (theme : LevelTheme) (kind : LevelKind) (rng : ℕ → ℚ) (i j : ℕ) (hij : i ≤ j)
    (hj : j < (generateLevel durationMs difficulty field theme kind rng).levelObjects.length) :
    ((generateLevel durationMs difficulty field theme kind rng).levelObjects.getD i
        dummyLevelObject).startTime ≤
    ((generateLevel durationMs difficulty field theme kind rng).levelObjects.getD j
        dummyLevelObject).startTime := by
  rw [List.getD_eq_getElem _ _ (lt_of_le_of_lt hij hj), List.getD_eq_getElem _ _ hj]
  rcases eq_or_lt_of_le hij with rfl | hlt
  · exact le_refl _
  · have hpair : ((generateLevel durationMs difficulty field theme kind
        rng).levelObjects).Pairwise (fun a b => decide (a.startTime ≤ b.startTime) = true) := by
      simp only [generateLevel]
      exact List.sorted_mergeSort
        (fun a b c h1 h2 => by
          simp only [decide_eq_true_eq] at h1 h2 ⊢
          exact le_trans h1 h2)
        (fun a b => by
          simp only [Bool.or_eq_true, decide_eq_true_eq]
          exact le_total _ _)
        _
    have := (List.pairwise_iff_getElem.mp hpair) i j
      (lt_of_le_of_lt hij hj) hj hlt
    simpa using this

/-- A random stream that schedules the first generated entry late (offset
`0.9 × 1500 = 1350`) and the second early (offset `0.1 × 1500 = 150`), so the
generation order is visibly unsorted before the closing sort. -/
def rngUnsorted : ℕ → ℚ :=
  fun n => if n = 0 then 9 / 10 else if n = 5 then 1 / 10 else 0

/-- Witness for C5 on a concrete 3-entry level built from an unsorted stream. -/
theorem generateLevel_sorted_startTime_witness :
    (0 : ℕ) ≤ 1 ∧
    1 < (generateLevel 2000 1 fld600 LevelTheme.day LevelKind.animals
          rngUnsorted).levelObjects.length ∧
    ((generateLevel 2000 1 fld600 LevelTheme.day LevelKind.animals
        rngUnsorted).levelObjects.getD 0 dummyLevelObject).startTime ≤
    ((generateLevel 2000 1 fld600 LevelTheme.day LevelKind.animals
        rngUnsorted).levelObjects.getD 1 dummyLevelObject).startTime := by
  have hlen : 1 < (generateLevel 2000 1 fld600 LevelTheme.day LevelKind.animals
      rngUnsorted).levelObjects.length := by
    simp only [generateLevel, List.length_mergeSort, List.length_map, List.length_range]
    norm_num [Int.floor_eq_iff]
  exact ⟨Nat.zero_le 1, hlen,
    generateLevel_sorted_startTime 2000 1 fld600 LevelTheme.day LevelKind.animals
      rngUnsorted 0 1 (Nat.zero_le 1) hlen⟩

/-- C7 counterexample: on the empty list the source `randomChoice` returns
normally with the value `undefined`; it does not fail, and in particular
never produces the "empty input" condition the spec-modelled
`randomChoiceSpec` prescribes. -/
theorem randomChoice_empty_no_failure :
    randomChoiceExc ([] : List ℚ) 0 = Except.ok JsValue.undef ∧
    randomChoiceSpec ([] : List ℚ) 0 = Except.error "empty input" ∧
    randomChoiceExc ([] : List ℚ) 0 ≠ randomChoiceSpec ([] : List ℚ) 0 := by
  refine ⟨?_, rfl, ?_⟩
  · simp [randomChoiceExc, randomChoice, jsIndex]
  · simp [randomChoiceExc, randomChoiceSpec, randomChoice, jsIndex]

/-- C7 (amended): `randomChoice` returns the element at index
`floor(u × length)`, and the index equals `k` exactly when
`u ∈ [k/length, (k+1)/length)` — equal-length subintervals of `[0,1)`, i.e. a
uniform selection for uniform `u`; on the empty list it returns the value
`undefined` instead of failing. -/
theorem randomChoice_uniform_index {α : Type} (arr : List α) (u : ℚ)
    (h0 : 0 ≤ u) (h1 : u < 1) :
    (arr = [] → randomChoice arr u = JsValue.undef) ∧
    (arr ≠ [] →
      ∃ hidx : (⌊u * (arr.length : ℚ)⌋).toNat < arr.length,
        randomChoice arr u =
          JsValue.val (arr.get ⟨(⌊u * (arr.length : ℚ)⌋).toNat, hidx⟩) ∧
        ∀ k : ℕ, ((⌊u * (arr.length : ℚ)⌋).toNat = k ↔
          (k : ℚ) / (arr.length : ℚ) ≤ u ∧ u < ((k : ℚ) + 1) / (arr.length : ℚ))) := by
  constructor
  · rintro rfl
    simp [randomChoice, jsIndex]
  · intro hne
    have hn : 0 < arr.length := List.length_pos.mpr hne
    have hnq : (0 : ℚ) < (arr.length : ℚ) := by exact_mod_cast hn
    have hnn : (0 : ℚ) ≤ u * (arr.length : ℚ) := mul_nonneg h0 (le_of_lt hnq)
    have hfl0 : 0 ≤ ⌊u * (arr.length : ℚ)⌋ := Int.floor_nonneg.mpr hnn
    have hflt : ⌊u * (arr.length : ℚ)⌋ < (arr.length : ℤ) := by
      rw [Int.floor_lt]
      push_cast
      calc u * (arr.length : ℚ) < 1 * (arr.length : ℚ) :=
            mul_lt_mul_of_pos_right h1 hnq
        _ = (arr.length : ℚ) := one_mul _
    have hidx : (⌊u * (arr.length : ℚ)⌋).toNat < arr.length := by omega
    refine ⟨hidx, ?_, ?_⟩
    · rw [randomChoice, jsIndex, dif_pos ⟨hfl0, hidx⟩]
    · intro k
      constructor
      · rintro rfl
        have hfeq : ⌊u * (arr.length : ℚ)⌋ =
            ((⌊u * (arr.length : ℚ)⌋).toNat : ℤ) := by omega
        have := Int.floor_eq_iff.mp hfeq
        push_cast at this
        constructor
        · rw [div_le_iff₀ hnq]
          exact this.1
        · rw [lt_div_iff₀ hnq]
          exact this.2
      · rintro ⟨hlo, hhi⟩
        have hlo2 : (k : ℚ) ≤ u * (arr.length : ℚ) := (div_le_iff₀ hnq).mp hlo
        have hhi2 : u * (arr.length : ℚ) < (k : ℚ) + 1 := (lt_div_iff₀ hnq).mp hhi
        have : ⌊u * (arr.length : ℚ)⌋ = (k : ℤ) :=
          Int.floor_eq_iff.mpr ⟨by push_cast; exact hlo2, by push_cast; exact hhi2⟩
        omega

/-- Witness for C7 on the 4-color shape palette at `u = 1/2`:
`floor(0.5 × 4) = 2` selects the third color. -/
theorem randomChoice_uniform_index_witness :
    (0 : ℚ) ≤ 1 / 2 ∧ (1 / 2 : ℚ) < 1 ∧
    randomChoice shapeColors (1 / 2) = JsValue.val "#85e3ff" := by
  refine ⟨by norm_num, by norm_num, ?_⟩
  obtain ⟨hidx, heq, hk⟩ :=
    (randomChoice_uniform_index shapeColors (1 / 2) (by norm_num) (by norm_num)).2
      (by simp [shapeColors])
  have h2 : (⌊(1 / 2 : ℚ) * (shapeColors.length : ℚ)⌋).toNat = 2 :=
    (hk 2).mpr (by norm_num [shapeColors])
  have hfin : (⟨(⌊(1 / 2 : ℚ) * (shapeColors.length : ℚ)⌋).toNat, hidx⟩ :
      Fin shapeColors.length) = ⟨2, by norm_num [shapeColors]⟩ := Fin.ext h2
  rw [heq, hfin]
  rfl

/-- When the spawn cursor is at (or past) the end of the schedule, the
dispatch loop does nothing. -/
theorem dispatchSpawns_at_end (level : Level) (e : ℚ) (rng : ℕ → ℚ) (f : GameField)
    (idx : ℕ) (h : level.levelObjects.length ≤ idx) :
    dispatchSpawns level e rng f idx = (f, idx) := by
  unfold dispatchSpawns
  rw [Nat.sub_eq_zero_of_le h]
  rfl

/-- The frame callback returns without any state change when the status is
not `RUNNING` (the source's early return). -/
theorem loop_fixed_unless_running (s : GameState) (t : ℚ) (rng : ℕ → ℚ)
    (h : s.status ≠ GameStatus.RUNNING) : Game.loop s t rng = some s := by
  rw [Game.loop, if_pos h]

/-- While `RUNNING` with a valid level index, one frame runs `loopStep`. -/
theorem loop_running_step (s : GameState) (t : ℚ) (rng : ℕ → ℚ) (level : Level)
    (hrun : s.status = GameStatus.RUNNING)
    (hlevel : s.levels.get? s.currentLevelIndex = some level) :
    Game.loop s t rng = some (loopStep s level t rng) := by
  rw [Game.loop, if_neg (by rw [hrun]; exact fun hne => hne rfl), hlevel]

/-- `handleLevelFinished` always raises the level-passed flag. -/
theorem handleLevelFinished_isLevelPassed (x : GameState) (now : ℚ) :
    (handleLevelFinished x now).isLevelPassed = true := by
  rw [handleLevelFinished]
  split
  · rfl
  · rfl

/-- `handleLevelFinished` always leaves the `RUNNING` status. -/
theorem handleLevelFinished_not_running (x : GameState) (now : ℚ) :
    (handleLevelFinished x now).status ≠ GameStatus.RUNNING := by
  rw [handleLevelFinished]
  split
  · simp
  · simp

/-- A 25-second level with an empty spawn schedule. -/
def level0 : Level :=
  { difficulty := 7 / 10, duration := 25000, levelObjects := [],
    theme := LevelTheme.night, kind := LevelKind.shapes }

/-- A circle about to fall past the death line while its (huge) bounding box
still overlaps the paddle. -/
def bigCircle : FallingObject := mkFallingCircle ⟨400, 700⟩ 1 150 "#ff9f80" "#ffffff"

/-- The paddle near the bottom of the field. -/
def playerMid : Player := mkPlayer ⟨400, 570⟩ 110 18 "#22e246" "#ffffff"

/-- The 800 × 600 field holding just `bigCircle`. -/
def fldC3 : GameField := { width := 800, height := 600, gameObjects := [bigCircle] }

/-- A running game state whose only object is `bigCircle`, one second into
`level0`, with no held keys. -/
def stateC3 : GameState :=
  { field := fldC3, player := playerMid, levels := [level0], currentLevelIndex := 0,
    levelStartTime := 0, lastFrameTime := 0, nextLevelObjectIndex := 0,
    status := GameStatus.RUNNING, leftPressed := false, rightPressed := false,
    upPressed := false, downPressed := false, isLevelPassed := false,
    levelPassedStartTime := 0 }

/-- C3 counterexample: in this frame the object is marked dead by movement
while overlapping the player, yet the run does not end (`handlePlayerHit`
would set `STOPPED`) and the collection is already empty after the frame —
so the collision check scanned the post-sweep collection, not the pre-sweep
one: `removeDead` runs after movement but before collision processing. -/
theorem loop_sweep_order_cex :
    (FallingObject.move bigCircle 1 fldC3).isAlive = false ∧
    hasCollision (FallingObject.move bigCircle 1 fldC3)
      (Player.move playerMid 1 fldC3) = true ∧
    (Game.loop stateC3 1000 (fun _ => 0)).map GameState.status =
      some GameStatus.RUNNING ∧
    (Game.loop stateC3 1000 (fun _ => 0)).map (fun s => s.field.gameObjects) =
      some [] := by
  refine ⟨?_, ?_, ?_, ?_⟩
  · norm_num [FallingObject.move, BaseFallingObject.move, bigCircle, mkFallingCircle, fldC3]
  · norm_num [FallingObject.move, BaseFallingObject.move, bigCircle, mkFallingCircle,
      fldC3, Player.move, playerMid, mkPlayer, hasCollision, FallingObject.getBounds,
      Player.getBounds, boundsIntersect]
  · norm_num [Game.loop, loopStep, applyHeldInput, stateC3, level0, fldC3, bigCircle,
      playerMid, mkPlayer, mkFallingCircle, dispatchSpawns, dispatchSpawnsAux,
      FallingObject.move, BaseFallingObject.move, Player.move, GameField.removeDead,
      hasCollision, FallingObject.getBounds, Player.getBounds, boundsIntersect,
      handlePlayerHit, handleLevelFinished, List.filter]
  · norm_num [Game.loop, loopStep, applyHeldInput, stateC3, level0, fldC3, bigCircle,
      playerMid, mkPlayer, mkFallingCircle, dispatchSpawns, dispatchSpawnsAux,
      FallingObject.move, BaseFallingObject.move, Player.move, GameField.removeDead,
      hasCollision, FallingObject.getBounds, Player.getBounds, boundsIntersect,
      handlePlayerHit, handleLevelFinished, List.filter]

/-- C3 (amended): in a `RUNNING` frame the sweep runs after movement but
before collision processing, so the collision check iterates the post-sweep
collection: an object marked dead by this frame's movement is never seen by
the collision test.  Behaviorally: if every moved object that overlaps the
(clamped) player is dead after moving, the frame cannot end the run
(the status stays `RUNNING` while the level timer has not expired). -/
theorem loop_dead_objects_never_collide (s : GameState) (t : ℚ) (rng : ℕ → ℚ)
    (level : Level)
    (hrun : s.status = GameStatus.RUNNING)
    (hlevel : s.levels.get? s.currentLevelIndex = some level)
    (hidx : level.levelObjects.length ≤ s.nextLevelObjectIndex)
    (hdur : t - s.levelStartTime < level.duration)
    (hkeys : s.leftPressed = false ∧ s.rightPressed = false ∧
      s.upPressed = false ∧ s.downPressed = false)
    (hdead : ∀ o ∈ s.field.gameObjects,
      hasCollision (FallingObject.move o ((t - s.lastFrameTime) / 1000) s.field)
        (s.player.move ((t - s.lastFrameTime) / 1000) s.field) = true →
      (FallingObject.move o ((t - s.lastFrameTime) / 1000) s.field).isAlive = false) :
    (Game.loop s t rng).map GameState.status = some GameStatus.RUNNING := by
  obtain ⟨hk1, hk2, hk3, hk4⟩ := hkeys
  rw [loop_running_step s t rng level hrun hlevel]
  have hdisp := dispatchSpawns_at_end level (t - s.levelStartTime) rng s.field
    s.nextLevelObjectIndex hidx
  have hinput : applyHeldInput s ((t - s.lastFrameTime) / 1000) = s.player := by
    simp [applyHeldInput, hk1, hk2, hk3, hk4]
  have hany : (List.filter (fun o => o.isAlive)
      (List.map (fun o => FallingObject.move o ((t - s.lastFrameTime) / 1000) s.field)
        s.field.gameObjects)).any
      (fun o => hasCollision o
        (s.player.move ((t - s.lastFrameTime) / 1000) s.field)) = false := by
    rw [List.any_eq_false]
    intro x hx
    rw [List.mem_filter] at hx
    obtain ⟨hxm, hxa⟩ := hx
    rw [List.mem_map] at hxm
    obtain ⟨o, ho, rfl⟩ := hxm
    intro hcol
    rw [hdead o ho hcol] at hxa
    exact absurd hxa (by decide)
  have hstatus : (loopStep s level t rng).status = GameStatus.RUNNING := by
    simp only [loopStep, hdisp, hinput, GameField.removeDead, hany, Bool.false_eq_true,
      if_false]
    rw [if_neg (fun hc => absurd hc.1 (not_le.mpr hdur))]
    exact hrun
  simp only [Option.map_some', hstatus]

/-- Witness for the amended C3 (the state of the counterexample): the frame
in which `bigCircle` dies while overlapping the paddle leaves the game
`RUNNING`. -/
theorem loop_dead_objects_never_collide_witness :
    stateC3.status = GameStatus.RUNNING ∧
    stateC3.levels.get? stateC3.currentLevelIndex = some level0 ∧
    level0.levelObjects.length ≤ stateC3.nextLevelObjectIndex ∧
    1000 - stateC3.levelStartTime < level0.duration ∧
    (Game.loop stateC3 1000 (fun _ => 0)).map GameState.status =
      some GameStatus.RUNNING := by
  refine ⟨rfl, rfl, by simp [level0], by norm_num [stateC3, level0], ?_⟩
  exact loop_dead_objects_never_collide stateC3 1000 (fun _ => 0) level0 rfl rfl
    (by simp [level0]) (by norm_num [stateC3, level0]) ⟨rfl, rfl, rfl, rfl⟩
    (by
      intro o ho _hcol
      simp only [stateC3, fldC3, List.mem_singleton] at ho
      subst ho
      norm_num [FallingObject.move, BaseFallingObject.move, bigCircle, mkFallingCircle,
        stateC3, fldC3])

/-- C8: a `RUNNING` frame with the level timer expired and an empty field
(and a drained spawn schedule) performs the level-passed transition: the
level-passed flag is raised and the status leaves `RUNNING`, so the
transition fires exactly once — every later frame returns the state
unchanged. -/
theorem loop_level_passed_once (s : GameState) (t : ℚ) (rng : ℕ → ℚ) (level : Level)
    (hrun : s.status = GameStatus.RUNNING)
    (hlevel : s.levels.get? s.currentLevelIndex = some level)
    (hidx : level.levelObjects.length ≤ s.nextLevelObjectIndex)
    (hempty : s.field.gameObjects = [])
    (hdur : level.duration ≤ t - s.levelStartTime) :
    ∃ s1, Game.loop s t rng = some s1 ∧
      s1.isLevelPassed = true ∧
      s1.status ≠ GameStatus.RUNNING ∧
      ∀ (t2 : ℚ) (rng2 : ℕ → ℚ), Game.loop s1 t2 rng2 = some s1 := by
  rw [loop_running_step s t rng level hrun hlevel]
  have hdisp := dispatchSpawns_at_end level (t - s.levelStartTime) rng s.field
    s.nextLevelObjectIndex hidx
  have hform : ∃ x, loopStep s level t rng = handleLevelFinished x t := by
    simp only [loopStep, hdisp, hempty, List.map_nil, GameField.removeDead,
      List.filter_nil, List.any_nil, Bool.false_eq_true, if_false]
    rw [if_pos ⟨hdur, rfl⟩]
    exact ⟨_, rfl⟩
  obtain ⟨x, hx⟩ := hform
  refine ⟨loopStep s level t rng, rfl, ?_, ?_, ?_⟩
  · rw [hx]
    exact handleLevelFinished_isLevelPassed x t
  · rw [hx]
    exact handleLevelFinished_not_running x t
  · intro t2 rng2
    apply loop_fixed_unless_running
    rw [hx]
    exact handleLevelFinished_not_running x t

/-- A running state with an empty field and drained schedule on `level0`. -/
def stateC8 : GameState :=
  { field := fld600, player := playerMid, levels := [level0], currentLevelIndex := 0,
    levelStartTime := 0, lastFrameTime := 24000, nextLevelObjectIndex := 0,
    status := GameStatus.RUNNING, leftPressed := false, rightPressed := false,
    upPressed := false, downPressed := false, isLevelPassed := false,
    levelPassedStartTime := 0 }

/-- Witness for C8: at `t = 25000` the 25-second `level0` with an empty field
triggers the level-passed transition, once. -/
theorem loop_level_passed_once_witness :
    stateC8.status = GameStatus.RUNNING ∧
    stateC8.levels.get? stateC8.currentLevelIndex = some level0 ∧
    level0.levelObjects.length ≤ stateC8.nextLevelObjectIndex ∧
    stateC8.field.gameObjects = [] ∧
    level0.duration ≤ 25000 - stateC8.levelStartTime ∧
    (∃ s1, Game.loop stateC8 25000 (fun _ => 0) = some s1 ∧
      s1.isLevelPassed = true ∧
      s1.status ≠ GameStatus.RUNNING ∧
      ∀ (t2 : ℚ) (rng2 : ℕ → ℚ), Game.loop s1 t2 rng2 = some s1) := by
  refine ⟨rfl, rfl, by simp [level0], rfl, by norm_num [stateC8, level0], ?_⟩
  exact loop_level_passed_once stateC8 25000 (fun _ => 0) level0 rfl rfl
    (by simp [level0]) rfl (by norm_num [stateC8, level0])
